import Mathlib

/-!
Shallow embedding of the TLS 1.3 application layer of
`src/restructured/consumers/openssl-ddd-architecture/src/application/ssl/tls1_3.c`
(header `tls1_3.h`, block-cipher interface `domain/crypto/aes.h`).

Bytes are modelled as `Nat` values, with `% 256` wherever the C source
truncates to `uint8_t`; buffers are `List Nat`.  The AES implementation is
not part of the repository (only the interface `aes.h` is), so the block
transform and the key-installation check are parameters gathered in a
`CryptoProvider` structure; the TLS layer below is translated line by line
from `tls1_3.c`.
-/

/-- Operation results, from `tls_result_t` in `tls1_3.h` (lines 38-47). -/
inductive TlsResult where
  | TLS_SUCCESS
  | TLS_ERROR_INVALID_PARAM
  | TLS_ERROR_INVALID_STATE
  | TLS_ERROR_INVALID_MESSAGE
  | TLS_ERROR_INVALID_BLOCK_SIZE
  | TLS_ERROR_MEMORY_ALLOCATION
  | TLS_ERROR_CRYPTO_FAILURE
  | TLS_ERROR_UNSUPPORTED_MESSAGE
  deriving DecidableEq

open TlsResult

/-- Handshake states, from `tls_handshake_state_t` (tls1_3.c lines 24-31).
`TLS_STATE_CLIENT_HELLO` is the first enumerator, i.e. the numeric value 0
produced by `memset`. -/
inductive TlsState where
  | TLS_STATE_CLIENT_HELLO
  | TLS_STATE_SERVER_HELLO
  | TLS_STATE_CHANGE_CIPHER_SPEC
  | TLS_STATE_FINISHED
  | TLS_STATE_APPLICATION_DATA
  | TLS_STATE_ERROR
  deriving DecidableEq

open TlsState

/-- Message type codes, from `tls_handshake_msg_type_t` (tls1_3.c lines 56-61).
The C source assigns the value 20 to BOTH `TLS_MSG_CHANGE_CIPHER_SPEC` and
`TLS_MSG_FINISHED`, exactly as reproduced here. -/
def TLS_MSG_CLIENT_HELLO : Nat := 1

/-- Message type code `TLS_MSG_SERVER_HELLO = 2` (tls1_3.c line 58). -/
def TLS_MSG_SERVER_HELLO : Nat := 2

/-- Message type code `TLS_MSG_CHANGE_CIPHER_SPEC = 20` (tls1_3.c line 59). -/
def TLS_MSG_CHANGE_CIPHER_SPEC : Nat := 20

/-- Message type code `TLS_MSG_FINISHED = 20` (tls1_3.c line 60) — the same
numeric value as `TLS_MSG_CHANGE_CIPHER_SPEC`. -/
def TLS_MSG_FINISHED : Nat := 20

/-- The TLS 1.3 context, from `tls1_3_context_t` (tls1_3.c lines 36-51).
The four heap-allocated crypto sub-contexts are represented by the single
field `aes`: `some k` means `aes_init` has installed key `k` into
`ctx->aes_ctx`; `none` means no key has been installed (freshly allocated
or released handle).  `sequence_number` is a `uint64_t`, modelled as a
`Nat` reduced `% 2^64` at the increment. -/
structure Tls13Context where
  state : TlsState
  client_random : List Nat      -- uint8_t[32]
  server_random : List Nat      -- uint8_t[32]
  master_secret : List Nat      -- uint8_t[48]
  client_write_key : List Nat   -- uint8_t[32]
  server_write_key : List Nat   -- uint8_t[32]
  client_write_iv : List Nat    -- uint8_t[12]
  server_write_iv : List Nat    -- uint8_t[12]
  aes : Option (List Nat)       -- aes_context_t* with its installed key
  sequence_number : Nat         -- uint64_t
  handshake_hash : List Nat     -- uint8_t[32]

/-- The block-cipher capability declared by `domain/crypto/aes.h` but not
implemented inside this repository.  `init_ok k` tells whether
`aes_init(ctx, k, AES_KEY_256)` returns `AES_SUCCESS`; `encB` / `decB`
model `aes_encrypt_block` / `aes_decrypt_block` on the installed key
(`none` meaning the AES context holds no installed key), returning `none`
when the call does not return `AES_SUCCESS`. -/
structure CryptoProvider where
  init_ok : List Nat → Bool
  encB : Option (List Nat) → List Nat → Option (List Nat)
  decB : Option (List Nat) → List Nat → Option (List Nat)

/-- Bytes of the C string literal `"TLS 1.3, server to client"` including
its terminating NUL, since `sizeof(salt)` in C counts it
(tls1_3.c line 112). -/
def saltBytes : List Nat :=
  ("TLS 1.3, server to client".data.map Char.toNat) ++ [0]

/-- Bytes of the C string literal `"tls13 derived"` including its
terminating NUL (tls1_3.c line 113). -/
def infoBytes : List Nat :=
  ("tls13 derived".data.map Char.toNat) ++ [0]

/-- Embedding of `tls_derive_master_secret` (tls1_3.c lines 107-123):
`master_secret[i] = (salt[i % sizeof salt] + shared[i % len] + info[i % sizeof info]) & 0xFF`
for `i < 48`.  The C function unconditionally returns `TLS_SUCCESS`. -/
def tls_derive_master_secret (ctx : Tls13Context) (shared : List Nat) :
    TlsResult × Tls13Context :=
  (TLS_SUCCESS,
   { ctx with master_secret :=
      (List.range 48).map (fun i =>
        (saltBytes.getD (i % saltBytes.length) 0 +
         shared.getD (i % shared.length) 0 +
         infoBytes.getD (i % infoBytes.length) 0) % 256) })

/-- Embedding of `tls_derive_traffic_keys` (tls1_3.c lines 128-149).
The C function unconditionally returns `TLS_SUCCESS`. -/
def tls_derive_traffic_keys (ctx : Tls13Context) : TlsResult × Tls13Context :=
  (TLS_SUCCESS,
   { ctx with
      client_write_key :=
        (List.range 32).map (fun i => (ctx.master_secret.getD (i % 48) 0 + i) % 256),
      server_write_key :=
        (List.range 32).map (fun i => (ctx.master_secret.getD (i % 48) 0 + i + 128) % 256),
      client_write_iv :=
        (List.range 12).map (fun i => (ctx.master_secret.getD (i % 48) 0 + i + 64) % 256),
      server_write_iv :=
        (List.range 12).map (fun i => (ctx.master_secret.getD (i % 48) 0 + i + 192) % 256) })

/-- Reads `n` bytes starting at offset `off`, as `memcpy(dst, data + off, n)`
does.  When `data` is shorter than `off + n` the C code reads past the end
of the caller's buffer (undefined behaviour); those out-of-range bytes are
modelled as 0.  No claim below depends on their value. -/
def memcpyFrom (data : List Nat) (off n : Nat) : List Nat :=
  (List.range n).map (fun i => data.getD (off + i) 0)

/-- Embedding of `tls_process_client_hello` (tls1_3.c lines 154-173). -/
def tls_process_client_hello (ctx : Tls13Context) (data : List Nat) :
    TlsResult × Tls13Context :=
  if ctx.state ≠ TLS_STATE_CLIENT_HELLO then
    (TLS_ERROR_INVALID_STATE, ctx)
  else if data.length < 4 then
    (TLS_ERROR_INVALID_MESSAGE, ctx)
  else
    -- memcpy(ctx->client_random, data + 4, 32);
    (TLS_SUCCESS,
     { ctx with client_random := memcpyFrom data 4 32,
                state := TLS_STATE_SERVER_HELLO })

/-- Embedding of `tls_process_server_hello` (tls1_3.c lines 178-197). -/
def tls_process_server_hello (ctx : Tls13Context) (data : List Nat) :
    TlsResult × Tls13Context :=
  if ctx.state ≠ TLS_STATE_SERVER_HELLO then
    (TLS_ERROR_INVALID_STATE, ctx)
  else if data.length < 4 then
    (TLS_ERROR_INVALID_MESSAGE, ctx)
  else
    (TLS_SUCCESS,
     { ctx with server_random := memcpyFrom data 4 32,
                state := TLS_STATE_CHANGE_CIPHER_SPEC })

/-- Embedding of `tls_process_change_cipher_spec` (tls1_3.c lines 202-236).
Note that on an `aes_init` failure the function returns
`TLS_ERROR_CRYPTO_FAILURE` with the already-mutated secrets but without
touching `ctx->state` (there is no transition to `TLS_STATE_ERROR`). -/
def tls_process_change_cipher_spec (prov : CryptoProvider) (ctx : Tls13Context)
    (data : List Nat) : TlsResult × Tls13Context :=
  if ctx.state ≠ TLS_STATE_CHANGE_CIPHER_SPEC then
    (TLS_ERROR_INVALID_STATE, ctx)
  else if data.length < 1 ∨ data.getD 0 0 ≠ 1 then
    (TLS_ERROR_INVALID_MESSAGE, ctx)
  else
    -- uint8_t shared_secret[32] = {0};
    let r1 := tls_derive_master_secret ctx (List.replicate 32 0)
    if r1.1 ≠ TLS_SUCCESS then r1
    else
      let r2 := tls_derive_traffic_keys r1.2
      if r2.1 ≠ TLS_SUCCESS then r2
      else
        -- aes_init(ctx->aes_ctx, ctx->client_write_key, AES_KEY_256)
        if prov.init_ok r2.2.client_write_key then
          (TLS_SUCCESS,
           { r2.2 with aes := some r2.2.client_write_key,
                       state := TLS_STATE_FINISHED })
        else
          (TLS_ERROR_CRYPTO_FAILURE, r2.2)

/-- Embedding of `tls_process_finished` (tls1_3.c lines 241-260). -/
def tls_process_finished (ctx : Tls13Context) (data : List Nat) :
    TlsResult × Tls13Context :=
  if ctx.state ≠ TLS_STATE_FINISHED then
    (TLS_ERROR_INVALID_STATE, ctx)
  else if data.length < 32 then
    (TLS_ERROR_INVALID_MESSAGE, ctx)
  else
    (TLS_SUCCESS, { ctx with state := TLS_STATE_APPLICATION_DATA })

/-- Embedding of `tls1_3_process_handshake` (tls1_3.c lines 295-324).
The C `switch` carries the duplicate case labels
`case TLS_MSG_CHANGE_CIPHER_SPEC:` and `case TLS_MSG_FINISHED:` — both the
constant 20, a C constraint violation.  Following the textual order of the
labels, message type 20 dispatches to `tls_process_change_cipher_spec`;
the `tls_process_finished` branch is unreachable because
`TLS_MSG_FINISHED` names the same value 20.  Pointer arguments are always
valid in this embedding, so the `!ctx || !data` check is not represented. -/
def tls1_3_process_handshake (prov : CryptoProvider) (ctx : Tls13Context)
    (data : List Nat) : TlsResult × Tls13Context :=
  if data.length < 4 then
    (TLS_ERROR_INVALID_MESSAGE, ctx)
  else
    let msg_type := data.getD 0 0
    if msg_type = TLS_MSG_CLIENT_HELLO then
      tls_process_client_hello ctx data
    else if msg_type = TLS_MSG_SERVER_HELLO then
      tls_process_server_hello ctx data
    else if msg_type = TLS_MSG_CHANGE_CIPHER_SPEC then
      tls_process_change_cipher_spec prov ctx data
    else if msg_type = TLS_MSG_FINISHED then
      tls_process_finished ctx data   -- dead: TLS_MSG_FINISHED = 20 already matched above
    else
      (TLS_ERROR_UNSUPPORTED_MESSAGE, ctx)

/-- Applies a per-block transform to `n` consecutive 16-byte blocks of `l`,
mirroring the loops of `tls1_3_encrypt_data` / `tls1_3_decrypt_data`
(tls1_3.c lines 347-355 and 384-392); `none` models a non-`AES_SUCCESS`
result at some block, after which the C function aborts with
`TLS_ERROR_CRYPTO_FAILURE`. -/
def cryptBlocksN (f : List Nat → Option (List Nat)) :
    Nat → List Nat → Option (List Nat)
  | 0, _ => some []
  | n + 1, l =>
    match f (l.take 16) with
    | none => none
    | some c =>
      match cryptBlocksN f n (l.drop 16) with
      | none => none
      | some rest => some (c ++ rest)

/-- The whole-buffer transform: `size_t blocks = len / 16;` followed by the
per-block loop (tls1_3.c lines 347 and 384). -/
def cryptBlocks (f : List Nat → Option (List Nat)) (l : List Nat) :
    Option (List Nat) :=
  cryptBlocksN f (l.length / 16) l

/-- Result of an encrypt/decrypt call: the returned `tls_result_t`, the
context after the call, the bytes placed in the caller's output buffer and
the value stored through the output length pointer.  On a failed call the
C code neither reports a length nor guarantees the buffer contents, so
`buf`/`len` are modelled as `[]`/`0` there; no claim reads them on
failure. -/
structure CryptOut where
  res : TlsResult
  ctx : Tls13Context
  buf : List Nat
  len : Nat

/-- Embedding of `tls1_3_encrypt_data` (tls1_3.c lines 329-361). -/
def tls1_3_encrypt_data (prov : CryptoProvider) (ctx : Tls13Context)
    (plaintext : List Nat) : CryptOut :=
  if ctx.state ≠ TLS_STATE_APPLICATION_DATA then
    ⟨TLS_ERROR_INVALID_STATE, ctx, [], 0⟩
  else if plaintext.length % 16 ≠ 0 then
    ⟨TLS_ERROR_INVALID_BLOCK_SIZE, ctx, [], 0⟩
  else
    match cryptBlocks (prov.encB ctx.aes) plaintext with
    | none => ⟨TLS_ERROR_CRYPTO_FAILURE, ctx, [], 0⟩
    | some ct =>
      ⟨TLS_SUCCESS,
       { ctx with sequence_number := (ctx.sequence_number + 1) % 2 ^ 64 },
       ct, plaintext.length⟩

/-- Embedding of `tls1_3_decrypt_data` (tls1_3.c lines 366-398).  It is the
mirror image of `tls1_3_encrypt_data` with `aes_decrypt_block` in place of
`aes_encrypt_block`; no authentication tag is read or verified anywhere. -/
def tls1_3_decrypt_data (prov : CryptoProvider) (ctx : Tls13Context)
    (ciphertext : List Nat) : CryptOut :=
  if ctx.state ≠ TLS_STATE_APPLICATION_DATA then
    ⟨TLS_ERROR_INVALID_STATE, ctx, [], 0⟩
  else if ciphertext.length % 16 ≠ 0 then
    ⟨TLS_ERROR_INVALID_BLOCK_SIZE, ctx, [], 0⟩
  else
    match cryptBlocks (prov.decB ctx.aes) ciphertext with
    | none => ⟨TLS_ERROR_CRYPTO_FAILURE, ctx, [], 0⟩
    | some pt =>
      ⟨TLS_SUCCESS,
       { ctx with sequence_number := (ctx.sequence_number + 1) % 2 ^ 64 },
       pt, ciphertext.length⟩

/-- Embedding of `tls1_3_get_state` (tls1_3.c lines 403-409); a NULL
context pointer is modelled by `none`. -/
def tls1_3_get_state (ctx : Option Tls13Context) : TlsState :=
  match ctx with
  | none => TLS_STATE_ERROR
  | some c => c.state

/-- The all-zero context produced by `memset(ctx, 0, sizeof(tls1_3_context_t))`:
every byte array is zero, the pointers are NULL (`aes := none`), the
sequence number is 0, and the state is the zero enumerator
`TLS_STATE_CLIENT_HELLO`. -/
def zeroCtx : Tls13Context :=
  { state := TLS_STATE_CLIENT_HELLO
    client_random := List.replicate 32 0
    server_random := List.replicate 32 0
    master_secret := List.replicate 48 0
    client_write_key := List.replicate 32 0
    server_write_key := List.replicate 32 0
    client_write_iv := List.replicate 12 0
    server_write_iv := List.replicate 12 0
    aes := none
    sequence_number := 0
    handshake_hash := List.replicate 32 0 }

/-- Embedding of `tls1_3_cleanup` (tls1_3.c lines 414-445): each non-NULL
crypto sub-context is cleaned, freed and NULLed, then the whole structure
is cleared with `memset(ctx, 0, sizeof(tls1_3_context_t))`. -/
def tls1_3_cleanup (ctx : Tls13Context) : Tls13Context :=
  let _released : Tls13Context := { ctx with aes := none }
  zeroCtx

/-- Embedding of `tls1_3_init` (tls1_3.c lines 265-290): the context is
zeroed, the state set to `TLS_STATE_CLIENT_HELLO`, and the four crypto
sub-contexts allocated.  `allocOk` abstracts whether all four `malloc`
calls succeed; on failure the function calls `tls1_3_cleanup` on the
partially initialized context and returns `TLS_ERROR_MEMORY_ALLOCATION`.
A successful `aes_ctx` allocation installs no key, hence `aes := none`. -/
def tls1_3_init (allocOk : Bool) : TlsResult × Tls13Context :=
  let ctx := { zeroCtx with state := TLS_STATE_CLIENT_HELLO }
  if allocOk then
    (TLS_SUCCESS, ctx)
  else
    (TLS_ERROR_MEMORY_ALLOCATION, tls1_3_cleanup ctx)

/-- A provider whose key installation always succeeds and whose block
transform is the identity on each 16-byte block; a stand-in instance of
the `aes.h` interface used for concrete evaluations (the repository ships
only the interface, not an AES implementation). -/
def idProv : CryptoProvider :=
  { init_ok := fun _ => true
    encB := fun _ b => some b
    decB := fun _ b => some b }

/-- A provider whose `aes_init` always fails, used to exercise the
provider-error paths. -/
def failProv : CryptoProvider :=
  { init_ok := fun _ => false
    encB := fun _ _ => none
    decB := fun _ _ => none }

/-- A freshly initialized context: `tls1_3_init` succeeded. -/
def freshCtx : Tls13Context := (tls1_3_init true).2

/-- A context that has completed the handshake: state
`TLS_STATE_APPLICATION_DATA` with an installed all-zero 32-byte write key. -/
def appCtx : Tls13Context :=
  { zeroCtx with state := TLS_STATE_APPLICATION_DATA,
                 aes := some (List.replicate 32 0) }

/-- A context awaiting a CHANGE_CIPHER_SPEC message, as reached after the
two hello messages. -/
def ccsCtx : Tls13Context :=
  { zeroCtx with state := TLS_STATE_CHANGE_CIPHER_SPEC }

/-- A well-formed 36-byte CLIENT_HELLO: type byte 1, 3-byte length, then
32 bytes of random data. -/
def msgClientHello : List Nat := 1 :: 0 :: 0 :: 32 :: List.range 32

/-- A well-formed 36-byte SERVER_HELLO: type byte 2, 3-byte length, then
32 bytes of random data. -/
def msgServerHello : List Nat := 2 :: 0 :: 0 :: 32 :: List.range 32

/-- A CHANGE_CIPHER_SPEC record: type byte 20, 3-byte length, then the
flag byte 1 required by the state machine. -/
def msgChangeCipherSpec : List Nat := [20, 0, 0, 1, 1]


/-- C3: the message-type code for CHANGE_CIPHER_SPEC is NOT distinct from
the one for FINISHED — `tls_handshake_msg_type_t` assigns the value 20 to
both (tls1_3.c lines 59-60), which also makes the two `case` labels of the
dispatch `switch` (lines 315-319) duplicates.  This theorem records the
collision that the claim (and spec section 9) requires to be absent. -/
theorem msg_type_codes_collide :
    TLS_MSG_CHANGE_CIPHER_SPEC = TLS_MSG_FINISHED ∧
    TLS_MSG_CHANGE_CIPHER_SPEC = 20 ∧ TLS_MSG_FINISHED = 20 ∧
    TLS_MSG_CLIENT_HELLO = 1 ∧ TLS_MSG_SERVER_HELLO = 2 := by
  decide

/-- C1: processing the well-formed sequence CLIENT_HELLO, SERVER_HELLO,
CHANGE_CIPHER_SPEC (type byte 20, flag byte 1) on a fresh context stalls:
the first two calls succeed, but the CHANGE_CIPHER_SPEC call returns
`TLS_ERROR_INVALID_MESSAGE` — `tls_process_change_cipher_spec` compares
`data[0]`, which dispatch required to be the type code 20, against the
flag value 1 (tls1_3.c line 210).  Framing the record with first byte 1
instead dispatches to `tls_process_client_hello` and fails with
`TLS_ERROR_INVALID_STATE`.  The handshake therefore never reaches
`TLS_STATE_APPLICATION_DATA`, contradicting the claim. -/
theorem handshake_sequence_stalls :
    (tls1_3_process_handshake idProv freshCtx msgClientHello).1 = TLS_SUCCESS ∧
    (tls1_3_process_handshake idProv freshCtx msgClientHello).2.state
      = TLS_STATE_SERVER_HELLO ∧
    (tls1_3_process_handshake idProv
      (tls1_3_process_handshake idProv freshCtx msgClientHello).2
      msgServerHello).1 = TLS_SUCCESS ∧
    (tls1_3_process_handshake idProv
      (tls1_3_process_handshake idProv freshCtx msgClientHello).2
      msgServerHello).2.state = TLS_STATE_CHANGE_CIPHER_SPEC ∧
    (tls1_3_process_handshake idProv
      (tls1_3_process_handshake idProv
        (tls1_3_process_handshake idProv freshCtx msgClientHello).2
        msgServerHello).2
      msgChangeCipherSpec).1 = TLS_ERROR_INVALID_MESSAGE ∧
    (tls1_3_process_handshake idProv
      (tls1_3_process_handshake idProv
        (tls1_3_process_handshake idProv freshCtx msgClientHello).2
        msgServerHello).2
      msgChangeCipherSpec).2.state = TLS_STATE_CHANGE_CIPHER_SPEC ∧
    (tls1_3_process_handshake idProv
      (tls1_3_process_handshake idProv
        (tls1_3_process_handshake idProv freshCtx msgClientHello).2
        msgServerHello).2
      [1, 0, 0, 1, 1]).1 = TLS_ERROR_INVALID_STATE := by
  decide

/-- C8: a 4-byte CLIENT_HELLO (total length 4, far below the 36 bytes the
spec requires) is ACCEPTED: `tls_process_client_hello` only checks
`data_len < 4` (tls1_3.c line 162) and then copies `data[4..35]` — an
out-of-bounds read — returning `TLS_SUCCESS` and advancing the state; the
analogous 4-byte SERVER_HELLO is accepted the same way
(tls1_3.c line 186). -/
theorem short_hellos_accepted :
    (tls1_3_process_handshake idProv freshCtx [1, 0, 0, 0]).1 = TLS_SUCCESS ∧
    (tls1_3_process_handshake idProv freshCtx [1, 0, 0, 0]).1
      ≠ TLS_ERROR_INVALID_MESSAGE ∧
    (tls1_3_process_handshake idProv freshCtx [1, 0, 0, 0]).2.state
      = TLS_STATE_SERVER_HELLO ∧
    (tls1_3_process_handshake idProv
      { zeroCtx with state := TLS_STATE_SERVER_HELLO } [2, 0, 0, 0]).1
      = TLS_SUCCESS ∧
    (tls1_3_process_handshake idProv
      { zeroCtx with state := TLS_STATE_SERVER_HELLO } [2, 0, 0, 0]).1
      ≠ TLS_ERROR_INVALID_MESSAGE := by
  decide

/-- C2: decryption performs no authentication.  Encrypting the all-zero
16-byte plaintext in an APPLICATION_DATA context and then decrypting a
ciphertext with one bit flipped (bit 0 of byte 0) returns `TLS_SUCCESS`
— not `TLS_ERROR_CRYPTO_FAILURE` — and hands the caller the altered
plaintext: `tls1_3_decrypt_data` applies `aes_decrypt_block` to each block
and never computes or compares an authentication tag
(tls1_3.c lines 366-398).  The identity block transform `idProv` stands in
for the AES implementation absent from the repository. -/
theorem decrypt_accepts_tampered_ciphertext :
    (tls1_3_encrypt_data idProv appCtx (List.replicate 16 0)).res
      = TLS_SUCCESS ∧
    (tls1_3_encrypt_data idProv appCtx (List.replicate 16 0)).buf
      = List.replicate 16 0 ∧
    (tls1_3_decrypt_data idProv
      (tls1_3_encrypt_data idProv appCtx (List.replicate 16 0)).ctx
      (1 :: List.replicate 15 0)).res = TLS_SUCCESS ∧
    (tls1_3_decrypt_data idProv
      (tls1_3_encrypt_data idProv appCtx (List.replicate 16 0)).ctx
      (1 :: List.replicate 15 0)).res ≠ TLS_ERROR_CRYPTO_FAILURE ∧
    (tls1_3_decrypt_data idProv
      (tls1_3_encrypt_data idProv appCtx (List.replicate 16 0)).ctx
      (1 :: List.replicate 15 0)).buf ≠ List.replicate 16 0 ∧
    (tls1_3_decrypt_data idProv
      (tls1_3_encrypt_data idProv appCtx (List.replicate 16 0)).ctx
      (1 :: List.replicate 15 0)).buf = 1 :: List.replicate 15 0 := by
  decide

/-- C6 counterexample: in the fresh state (accepting type 1) a 4-byte
message of the unrecognized type 3 — a type that does not match the
state's accepted type — returns `TLS_ERROR_UNSUPPORTED_MESSAGE`,
not `TLS_ERROR_INVALID_STATE` as the claim states
(tls1_3.c lines 321-322). -/
theorem mismatched_type_not_always_invalid_state :
    (tls1_3_process_handshake idProv freshCtx [3, 0, 0, 0]).1
      = TLS_ERROR_UNSUPPORTED_MESSAGE ∧
    (tls1_3_process_handshake idProv freshCtx [3, 0, 0, 0]).1
      ≠ TLS_ERROR_INVALID_STATE ∧
    (tls1_3_process_handshake idProv freshCtx [3, 0, 0, 0]).2 = freshCtx :=
  ⟨rfl, by decide, rfl⟩

/-- C7 counterexample: with a provider whose `aes_init` fails,
`tls_process_change_cipher_spec` on a valid flag byte returns
`TLS_ERROR_CRYPTO_FAILURE` but leaves the state at
`TLS_STATE_CHANGE_CIPHER_SPEC`: there is no transition to
`TLS_STATE_ERROR` (tls1_3.c lines 226-230 return without touching
`ctx->state`), so the failure is not absorbing. -/
theorem ccs_failure_no_error_transition :
    (tls_process_change_cipher_spec failProv ccsCtx [1]).1
      = TLS_ERROR_CRYPTO_FAILURE ∧
    (tls_process_change_cipher_spec failProv ccsCtx [1]).2.state
      = TLS_STATE_CHANGE_CIPHER_SPEC ∧
    (tls_process_change_cipher_spec failProv ccsCtx [1]).2.state
      ≠ TLS_STATE_ERROR := by
  decide

/-- A block-accurate transform applied to a buffer of exactly `n` blocks
succeeds and yields a buffer of the same byte count; composing it with a
per-block inverse recovers the original buffer. -/
lemma cryptBlocksN_roundtrip (e d : List Nat → Option (List Nat))
    (h : ∀ b, b.length = 16 →
      ∃ c, e b = some c ∧ c.length = 16 ∧ d c = some b) :
    ∀ (n : Nat) (l : List Nat), l.length = 16 * n →
      ∃ cl, cryptBlocksN e n l = some cl ∧ cl.length = 16 * n ∧
        cryptBlocksN d n cl = some l := by
  intro n
  induction n with
  | zero =>
    intro l hl
    have hnil : l = [] := List.eq_nil_of_length_eq_zero (by simpa using hl)
    subst hnil
    exact ⟨[], rfl, by simp, rfl⟩
  | succ n ih =>
    intro l hl
    have h16 : 16 ≤ l.length := by omega
    have htake : (l.take 16).length = 16 := by
      simp only [List.length_take]
      omega
    obtain ⟨c, hec, hc16, hdc⟩ := h (l.take 16) htake
    have hdroplen : (l.drop 16).length = 16 * n := by
      simp only [List.length_drop]
      omega
    obtain ⟨cl, hecl, hcllen, hdcl⟩ := ih (l.drop 16) hdroplen
    refine ⟨c ++ cl, ?_, ?_, ?_⟩
    · simp [cryptBlocksN, hec, hecl]
    · simp only [List.length_append, hc16, hcllen]
      ring
    · have ht : (c ++ cl).take 16 = c := by
        rw [← hc16]
        exact List.take_left c cl
      have hd : (c ++ cl).drop 16 = cl := by
        rw [← hc16]
        exact List.drop_left c cl
      simp only [cryptBlocksN, ht, hd, hdc, hdcl]
      exact congrArg some (List.take_append_drop 16 l)

/-- When each block transform preserves the 16-byte block length, the
whole-buffer transform preserves the byte count. -/
lemma cryptBlocksN_length (e : List Nat → Option (List Nat))
    (hlb : ∀ b c, b.length = 16 → e b = some c → c.length = 16) :
    ∀ (n : Nat) (l cl : List Nat), l.length = 16 * n →
      cryptBlocksN e n l = some cl → cl.length = l.length := by
  intro n
  induction n with
  | zero =>
    intro l cl hl hc
    simp only [cryptBlocksN, Option.some.injEq] at hc
    subst hc
    simp only [List.length_nil]
    omega
  | succ n ih =>
    intro l cl hl hc
    have htake : (l.take 16).length = 16 := by
      simp only [List.length_take]
      omega
    cases hhe : e (l.take 16) with
    | none => simp [cryptBlocksN, hhe] at hc
    | some c =>
      cases hrest : cryptBlocksN e n (l.drop 16) with
      | none => simp [cryptBlocksN, hhe, hrest] at hc
      | some rest =>
        have hcl : cl = c ++ rest := by
          simp [cryptBlocksN, hhe, hrest] at hc
          exact hc.symm
        have hc16 : c.length = 16 := hlb _ _ htake hhe
        have hdroplen : (l.drop 16).length = 16 * n := by
          simp only [List.length_drop]
          omega
        have hrlen : rest.length = (l.drop 16).length :=
          ih (l.drop 16) rest hdroplen hrest
        simp only [List.length_drop] at hrlen
        simp only [hcl, List.length_append, hc16, hrlen]
        omega

/-- C5: in `TLS_STATE_APPLICATION_DATA`, for a plaintext whose length is a
positive multiple of 16, `tls1_3_decrypt_data` applied to the output of
`tls1_3_encrypt_data` under the same context recovers the plaintext
exactly, provided the provider's block decrypt inverts its block encrypt
for the installed key.  Both functions walk the buffer in independent
16-byte ECB blocks (tls1_3.c lines 346-360 and 383-397), so the inverse
lifts blockwise. -/
theorem encrypt_then_decrypt_roundtrip (prov : CryptoProvider)
    (ctx : Tls13Context) (pt k : List Nat)
    (hst : ctx.state = TLS_STATE_APPLICATION_DATA)
    (hk : ctx.aes = some k)
    (hmod : pt.length % 16 = 0) (_hpos : 0 < pt.length)
    (hinv : ∀ b, b.length = 16 →
      ∃ c, prov.encB (some k) b = some c ∧ c.length = 16 ∧
        prov.decB (some k) c = some b) :
    (tls1_3_encrypt_data prov ctx pt).res = TLS_SUCCESS ∧
    (tls1_3_decrypt_data prov (tls1_3_encrypt_data prov ctx pt).ctx
      (tls1_3_encrypt_data prov ctx pt).buf).res = TLS_SUCCESS ∧
    (tls1_3_decrypt_data prov (tls1_3_encrypt_data prov ctx pt).ctx
      (tls1_3_encrypt_data prov ctx pt).buf).buf = pt := by
  have hdvd : 16 ∣ pt.length := Nat.dvd_of_mod_eq_zero hmod
  have hlen : pt.length = 16 * (pt.length / 16) := (Nat.mul_div_cancel' hdvd).symm
  obtain ⟨cl, hecl, hcllen, hdcl⟩ :=
    cryptBlocksN_roundtrip (prov.encB (some k)) (prov.decB (some k)) hinv
      (pt.length / 16) pt hlen
  have he : tls1_3_encrypt_data prov ctx pt =
      ⟨TLS_SUCCESS,
       { ctx with sequence_number := (ctx.sequence_number + 1) % 2 ^ 64 },
       cl, pt.length⟩ := by
    unfold tls1_3_encrypt_data cryptBlocks
    rw [hst, hk]
    simp [hmod, hecl]
  have hclmod : cl.length % 16 = 0 := by
    rw [hcllen]
    exact Nat.mul_mod_right 16 _
  have hcldiv : cl.length / 16 = pt.length / 16 := by
    rw [hcllen]
    exact Nat.mul_div_cancel_left _ (by norm_num)
  have hd : tls1_3_decrypt_data prov
      { ctx with sequence_number := (ctx.sequence_number + 1) % 2 ^ 64 } cl =
      ⟨TLS_SUCCESS,
       { ctx with sequence_number :=
          (((ctx.sequence_number + 1) % 2 ^ 64) + 1) % 2 ^ 64 },
       pt, cl.length⟩ := by
    unfold tls1_3_decrypt_data cryptBlocks
    simp only [hst, hk, hclmod, hcldiv, hdcl]
    simp
  rw [he]
  exact ⟨rfl, by rw [hd], by rw [hd]⟩

/-- Witness for C5 at a concrete input: the identity block transform on
a 32-byte plaintext in `appCtx`. -/
theorem encrypt_then_decrypt_roundtrip_witness :
    (tls1_3_encrypt_data idProv appCtx (List.replicate 32 7)).res
      = TLS_SUCCESS ∧
    (tls1_3_decrypt_data idProv
      (tls1_3_encrypt_data idProv appCtx (List.replicate 32 7)).ctx
      (tls1_3_encrypt_data idProv appCtx (List.replicate 32 7)).buf).buf
      = List.replicate 32 7 := by
  have h := encrypt_then_decrypt_roundtrip idProv appCtx
    (List.replicate 32 7) (List.replicate 32 0)
    (by decide) (by decide) (by decide) (by decide)
    (fun b hb => ⟨b, rfl, hb, rfl⟩)
  exact ⟨h.1, h.2.2⟩

/-- Helper: `tls_process_client_hello` never touches the sequence counter. -/
lemma seq_client_hello (ctx : Tls13Context) (data : List Nat) :
    (tls_process_client_hello ctx data).2.sequence_number
      = ctx.sequence_number := by
  unfold tls_process_client_hello
  split_ifs <;> rfl

/-- Helper: `tls_process_server_hello` never touches the sequence counter. -/
lemma seq_server_hello (ctx : Tls13Context) (data : List Nat) :
    (tls_process_server_hello ctx data).2.sequence_number
      = ctx.sequence_number := by
  unfold tls_process_server_hello
  split_ifs <;> rfl

/-- Helper: `tls_process_change_cipher_spec` never touches the sequence
counter (key derivation rewrites only the secret fields). -/
lemma seq_change_cipher_spec (prov : CryptoProvider) (ctx : Tls13Context)
    (data : List Nat) :
    (tls_process_change_cipher_spec prov ctx data).2.sequence_number
      = ctx.sequence_number := by
  simp only [tls_process_change_cipher_spec, tls_derive_master_secret,
    tls_derive_traffic_keys]
  split_ifs <;> rfl

/-- Helper: `tls_process_finished` never touches the sequence counter. -/
lemma seq_finished (ctx : Tls13Context) (data : List Nat) :
    (tls_process_finished ctx data).2.sequence_number
      = ctx.sequence_number := by
  unfold tls_process_finished
  split_ifs <;> rfl

/-- C4: the sequence counter starts at 0 after `tls1_3_init`, is left
untouched by every `tls1_3_process_handshake` call, is bumped by exactly
one 64-bit increment on every successful `tls1_3_encrypt_data` /
`tls1_3_decrypt_data` call (exactly +1 whenever the counter has not
reached 2^64 - 1), and is unchanged whenever such a call fails. -/
theorem sequence_number_discipline (ok : Bool) (prov : CryptoProvider)
    (ctx : Tls13Context) (data pt ct : List Nat) :
    (tls1_3_init ok).2.sequence_number = 0 ∧
    (tls1_3_process_handshake prov ctx data).2.sequence_number
      = ctx.sequence_number ∧
    ((tls1_3_encrypt_data prov ctx pt).res = TLS_SUCCESS →
      (tls1_3_encrypt_data prov ctx pt).ctx.sequence_number
        = (ctx.sequence_number + 1) % 2 ^ 64) ∧
    ((tls1_3_encrypt_data prov ctx pt).res = TLS_SUCCESS →
      ctx.sequence_number + 1 < 2 ^ 64 →
      (tls1_3_encrypt_data prov ctx pt).ctx.sequence_number
        = ctx.sequence_number + 1) ∧
    ((tls1_3_encrypt_data prov ctx pt).res ≠ TLS_SUCCESS →
      (tls1_3_encrypt_data prov ctx pt).ctx.sequence_number
        = ctx.sequence_number) ∧
    ((tls1_3_decrypt_data prov ctx ct).res = TLS_SUCCESS →
      (tls1_3_decrypt_data prov ctx ct).ctx.sequence_number
        = (ctx.sequence_number + 1) % 2 ^ 64) ∧
    ((tls1_3_decrypt_data prov ctx ct).res = TLS_SUCCESS →
      ctx.sequence_number + 1 < 2 ^ 64 →
      (tls1_3_decrypt_data prov ctx ct).ctx.sequence_number
        = ctx.sequence_number + 1) ∧
    ((tls1_3_decrypt_data prov ctx ct).res ≠ TLS_SUCCESS →
      (tls1_3_decrypt_data prov ctx ct).ctx.sequence_number
        = ctx.sequence_number) := by
  refine ⟨?_, ?_, ?_, ?_, ?_, ?_, ?_, ?_⟩
  · cases ok <;> rfl
  · simp only [tls1_3_process_handshake]
    split_ifs <;>
      first
        | rfl
        | exact seq_client_hello ctx data
        | exact seq_server_hello ctx data
        | exact seq_change_cipher_spec prov ctx data
        | exact seq_finished ctx data
  · unfold tls1_3_encrypt_data
    split_ifs <;> try (intro h; exact absurd h (by decide))
    cases hcb : cryptBlocks (prov.encB ctx.aes) pt <;> simp [hcb]
  · unfold tls1_3_encrypt_data
    split_ifs <;> try (intro h; exact absurd h (by decide))
    cases hcb : cryptBlocks (prov.encB ctx.aes) pt <;>
      simp [hcb, Nat.mod_eq_of_lt]
  · unfold tls1_3_encrypt_data
    split_ifs <;> try (intro _; rfl)
    cases hcb : cryptBlocks (prov.encB ctx.aes) pt <;> simp [hcb]
  · unfold tls1_3_decrypt_data
    split_ifs <;> try (intro h; exact absurd h (by decide))
    cases hcb : cryptBlocks (prov.decB ctx.aes) ct <;> simp [hcb]
  · unfold tls1_3_decrypt_data
    split_ifs <;> try (intro h; exact absurd h (by decide))
    cases hcb : cryptBlocks (prov.decB ctx.aes) ct <;>
      simp [hcb, Nat.mod_eq_of_lt]
  · unfold tls1_3_decrypt_data
    split_ifs <;> try (intro _; rfl)
    cases hcb : cryptBlocks (prov.decB ctx.aes) ct <;> simp [hcb]

/-- Witness for C4 at concrete inputs: a successful encrypt on `appCtx`
takes the counter from 0 to 1, and a failed encrypt (wrong state, on
`freshCtx`) leaves it at 0. -/
theorem sequence_number_discipline_witness :
    (tls1_3_init true).2.sequence_number = 0 ∧
    (tls1_3_encrypt_data idProv appCtx (List.replicate 16 0)).ctx.sequence_number = 1 ∧
    (tls1_3_encrypt_data idProv freshCtx (List.replicate 16 0)).ctx.sequence_number = 0 := by
  have h := sequence_number_discipline true idProv appCtx
    (List.replicate 16 0) (List.replicate 16 0) (List.replicate 16 0)
  have h2 := sequence_number_discipline true idProv freshCtx
    (List.replicate 16 0) (List.replicate 16 0) (List.replicate 16 0)
  refine ⟨h.1, ?_, ?_⟩
  · have := h.2.2.2.1 (by decide) (by decide)
    simpa using this
  · have := h2.2.2.2.2.1 (by decide)
    simpa using this

/-- The message type each handshake state accepts, read off the state
checks at the top of the four handlers (tls1_3.c lines 157, 181, 205,
244); `TLS_STATE_FINISHED` accepts `TLS_MSG_FINISHED`, which the source
defines as the value 20.  The states past the handshake accept no
handshake message; 0 is no recognized type's code. -/
def acceptedMsgType : TlsState → Nat
  | TLS_STATE_CLIENT_HELLO => TLS_MSG_CLIENT_HELLO
  | TLS_STATE_SERVER_HELLO => TLS_MSG_SERVER_HELLO
  | TLS_STATE_CHANGE_CIPHER_SPEC => TLS_MSG_CHANGE_CIPHER_SPEC
  | TLS_STATE_FINISHED => TLS_MSG_FINISHED
  | TLS_STATE_APPLICATION_DATA => 0
  | TLS_STATE_ERROR => 0

/-- Helper: once the length guard passes, `tls1_3_process_handshake` is a
pure dispatch on the type byte; the `TLS_MSG_FINISHED` branch collapses
into the `TLS_MSG_CHANGE_CIPHER_SPEC` one because both constants are 20. -/
lemma process_handshake_dispatch (prov : CryptoProvider)
    (ctx : Tls13Context) (data : List Nat) (h4 : ¬ data.length < 4) :
    tls1_3_process_handshake prov ctx data =
      if data.getD 0 0 = TLS_MSG_CLIENT_HELLO then
        tls_process_client_hello ctx data
      else if data.getD 0 0 = TLS_MSG_SERVER_HELLO then
        tls_process_server_hello ctx data
      else if data.getD 0 0 = TLS_MSG_CHANGE_CIPHER_SPEC then
        tls_process_change_cipher_spec prov ctx data
      else
        (TLS_ERROR_UNSUPPORTED_MESSAGE, ctx) := by
  simp only [tls1_3_process_handshake, if_neg h4]
  split_ifs with h1 h2 h3 hf
  · rfl
  · rfl
  · rfl
  · exact absurd hf h3
  · rfl

/-- C6 (amended): for a message of length at least 4 whose type byte is
one of the recognized codes (1, 2 or 20) and does not match the current
state's accepted type, `tls1_3_process_handshake` returns
`TLS_ERROR_INVALID_STATE` and leaves the context bit-for-bit unchanged,
so `tls1_3_get_state` afterwards equals the pre-call state.  (Messages
shorter than 4 bytes return `TLS_ERROR_INVALID_MESSAGE` and unrecognized
type bytes return `TLS_ERROR_UNSUPPORTED_MESSAGE` instead, both also
leaving the context unchanged.) -/
theorem recognized_mismatch_invalid_state (prov : CryptoProvider)
    (ctx : Tls13Context) (data : List Nat)
    (hlen : 4 ≤ data.length)
    (htype : data.getD 0 0 = TLS_MSG_CLIENT_HELLO ∨
      data.getD 0 0 = TLS_MSG_SERVER_HELLO ∨
      data.getD 0 0 = TLS_MSG_CHANGE_CIPHER_SPEC)
    (hmis : data.getD 0 0 ≠ acceptedMsgType ctx.state) :
    tls1_3_process_handshake prov ctx data = (TLS_ERROR_INVALID_STATE, ctx) ∧
    tls1_3_get_state (some (tls1_3_process_handshake prov ctx data).2)
      = tls1_3_get_state (some ctx) := by
  have h4 : ¬ data.length < 4 := by omega
  have hmain : tls1_3_process_handshake prov ctx data
      = (TLS_ERROR_INVALID_STATE, ctx) := by
    rw [process_handshake_dispatch prov ctx data h4]
    rcases htype with ht | ht | ht
    · have hs : ctx.state ≠ TLS_STATE_CLIENT_HELLO := by
        intro h
        exact hmis (ht.trans (by rw [h]; rfl))
      rw [ht, if_pos rfl]
      unfold tls_process_client_hello
      rw [if_pos hs]
    · have hs : ctx.state ≠ TLS_STATE_SERVER_HELLO := by
        intro h
        exact hmis (ht.trans (by rw [h]; rfl))
      rw [ht, if_neg (by decide), if_pos rfl]
      unfold tls_process_server_hello
      rw [if_pos hs]
    · have hs : ctx.state ≠ TLS_STATE_CHANGE_CIPHER_SPEC := by
        intro h
        exact hmis (ht.trans (by rw [h]; rfl))
      rw [ht, if_neg (by decide), if_neg (by decide), if_pos rfl]
      unfold tls_process_change_cipher_spec
      rw [if_pos hs]
  exact ⟨hmain, by rw [hmain]⟩

/-- Witness for C6 (amended): a SERVER_HELLO-typed message sent to a
fresh context (which accepts only type 1) is rejected with
`TLS_ERROR_INVALID_STATE` and the context is unchanged. -/
theorem recognized_mismatch_invalid_state_witness :
    tls1_3_process_handshake idProv freshCtx [2, 0, 0, 0]
      = (TLS_ERROR_INVALID_STATE, freshCtx) :=
  (recognized_mismatch_invalid_state idProv freshCtx [2, 0, 0, 0]
    (by decide) (Or.inr (Or.inl (by decide))) (by decide)).1

/-- C7 (amended): when arming the record cipher fails (the provider's
`aes_init` rejects the keys it is offered) while
`tls_process_change_cipher_spec` handles a valid flag byte in state
`TLS_STATE_CHANGE_CIPHER_SPEC`, the call returns
`TLS_ERROR_CRYPTO_FAILURE` and the state REMAINS
`TLS_STATE_CHANGE_CIPHER_SPEC`; there is no transition to
`TLS_STATE_ERROR` and the failure is not absorbing.  (The two key
derivation steps cannot fail: both unconditionally return
`TLS_SUCCESS`.) -/
theorem ccs_arming_failure_behavior (prov : CryptoProvider)
    (ctx : Tls13Context) (data : List Nat)
    (hst : ctx.state = TLS_STATE_CHANGE_CIPHER_SPEC)
    (hlen : 1 ≤ data.length) (hflag : data.getD 0 0 = 1)
    (hfail : ∀ k, prov.init_ok k = false) :
    (tls_process_change_cipher_spec prov ctx data).1
      = TLS_ERROR_CRYPTO_FAILURE ∧
    (tls_process_change_cipher_spec prov ctx data).2.state
      = TLS_STATE_CHANGE_CIPHER_SPEC ∧
    (tls_process_change_cipher_spec prov ctx data).2.state
      ≠ TLS_STATE_ERROR := by
  have hstc : ¬(ctx.state ≠ TLS_STATE_CHANGE_CIPHER_SPEC) := by
    simp [hst]
  have h1 : ¬(data.length < 1 ∨ data.getD 0 0 ≠ 1) := by
    push_neg
    exact ⟨by omega, hflag⟩
  refine ⟨?_, ?_, ?_⟩ <;>
  · unfold tls_process_change_cipher_spec
    rw [if_neg hstc, if_neg h1]
    simp [tls_derive_master_secret, tls_derive_traffic_keys, hfail, hst]

/-- Witness for C7 (amended): the always-failing provider on a concrete
context awaiting CHANGE_CIPHER_SPEC. -/
theorem ccs_arming_failure_behavior_witness :
    (tls_process_change_cipher_spec failProv
      { zeroCtx with state := TLS_STATE_CHANGE_CIPHER_SPEC,
                     sequence_number := 5 } [1, 0]).1
      = TLS_ERROR_CRYPTO_FAILURE ∧
    (tls_process_change_cipher_spec failProv
      { zeroCtx with state := TLS_STATE_CHANGE_CIPHER_SPEC,
                     sequence_number := 5 } [1, 0]).2.state
      = TLS_STATE_CHANGE_CIPHER_SPEC :=
  have h := ccs_arming_failure_behavior failProv
    { zeroCtx with state := TLS_STATE_CHANGE_CIPHER_SPEC,
                   sequence_number := 5 } [1, 0]
    rfl (by decide) (by decide) (fun _ => rfl)
  ⟨h.1, h.2.1⟩

/-- All key-material fields of a context hold only zero bytes. -/
def keyFieldsZero (ctx : Tls13Context) : Prop :=
  ctx.client_random = List.replicate 32 0 ∧
  ctx.server_random = List.replicate 32 0 ∧
  ctx.master_secret = List.replicate 48 0 ∧
  ctx.client_write_key = List.replicate 32 0 ∧
  ctx.server_write_key = List.replicate 32 0 ∧
  ctx.client_write_iv = List.replicate 12 0 ∧
  ctx.server_write_iv = List.replicate 12 0

/-- C9: after `tls1_3_cleanup` every key-material field is all-zero bytes
and the provider handles are released; cleanup is idempotent, and running
it on the context left by a failed `tls1_3_init` (which already cleaned
up its partial allocation) is safe and yields the same all-zero state. -/
theorem cleanup_zeroizes_and_is_idempotent (ctx : Tls13Context) :
    keyFieldsZero (tls1_3_cleanup ctx) ∧
    (tls1_3_cleanup ctx).aes = none ∧
    (tls1_3_cleanup ctx).sequence_number = 0 ∧
    tls1_3_cleanup (tls1_3_cleanup ctx) = tls1_3_cleanup ctx ∧
    tls1_3_cleanup (tls1_3_init false).2 = (tls1_3_init false).2 ∧
    keyFieldsZero (tls1_3_init false).2 := by
  exact ⟨⟨rfl, rfl, rfl, rfl, rfl, rfl, rfl⟩, rfl, rfl, rfl, rfl,
    ⟨rfl, rfl, rfl, rfl, rfl, rfl, rfl⟩⟩

/-- C10: on every successful call, `tls1_3_encrypt_data` stores the exact
plaintext length through its output length pointer (tls1_3.c line 357) —
no authentication tag is appended — and `tls1_3_decrypt_data` stores the
exact ciphertext length (tls1_3.c line 394); when the provider's block
transform is 16-byte-length-preserving, the bytes written to the output
buffer also number exactly the input length. -/
theorem reported_lengths_match (prov : CryptoProvider)
    (ctx : Tls13Context) (pt ct : List Nat) :
    ((tls1_3_encrypt_data prov ctx pt).res = TLS_SUCCESS →
      (tls1_3_encrypt_data prov ctx pt).len = pt.length) ∧
    ((∀ b c, b.length = 16 → prov.encB ctx.aes b = some c → c.length = 16) →
      (tls1_3_encrypt_data prov ctx pt).res = TLS_SUCCESS →
      (tls1_3_encrypt_data prov ctx pt).buf.length = pt.length) ∧
    ((tls1_3_decrypt_data prov ctx ct).res = TLS_SUCCESS →
      (tls1_3_decrypt_data prov ctx ct).len = ct.length) ∧
    ((∀ b c, b.length = 16 → prov.decB ctx.aes b = some c → c.length = 16) →
      (tls1_3_decrypt_data prov ctx ct).res = TLS_SUCCESS →
      (tls1_3_decrypt_data prov ctx ct).buf.length = ct.length) := by
  refine ⟨?_, ?_, ?_, ?_⟩
  · unfold tls1_3_encrypt_data
    split_ifs <;> try (intro h; exact absurd h (by decide))
    cases hcb : cryptBlocks (prov.encB ctx.aes) pt <;> simp [hcb]
  · intro hlb
    unfold tls1_3_encrypt_data
    split_ifs with hs hm
    · simp
    · simp
    · cases hcb : cryptBlocks (prov.encB ctx.aes) pt with
      | none => simp [hcb]
      | some cl =>
        simp only [hcb]
        intro _
        push_neg at hm
        have hlen : pt.length = 16 * (pt.length / 16) :=
          (Nat.mul_div_cancel' (Nat.dvd_of_mod_eq_zero hm)).symm
        exact cryptBlocksN_length (prov.encB ctx.aes) hlb
          (pt.length / 16) pt cl hlen hcb
  · unfold tls1_3_decrypt_data
    split_ifs <;> try (intro h; exact absurd h (by decide))
    cases hcb : cryptBlocks (prov.decB ctx.aes) ct <;> simp [hcb]
  · intro hlb
    unfold tls1_3_decrypt_data
    split_ifs with hs hm
    · simp
    · simp
    · cases hcb : cryptBlocks (prov.decB ctx.aes) ct with
      | none => simp [hcb]
      | some cl =>
        simp only [hcb]
        intro _
        push_neg at hm
        have hlen : ct.length = 16 * (ct.length / 16) :=
          (Nat.mul_div_cancel' (Nat.dvd_of_mod_eq_zero hm)).symm
        exact cryptBlocksN_length (prov.decB ctx.aes) hlb
          (ct.length / 16) ct cl hlen hcb

/-- Witness for C10 at concrete inputs: with the identity block transform
on a 32-byte buffer in `appCtx`, both the reported and actual output
lengths are 32. -/
theorem reported_lengths_match_witness :
    (tls1_3_encrypt_data idProv appCtx (List.replicate 32 9)).len = 32 ∧
    (tls1_3_encrypt_data idProv appCtx (List.replicate 32 9)).buf.length = 32 ∧
    (tls1_3_decrypt_data idProv appCtx (List.replicate 32 9)).len = 32 := by
  have h := reported_lengths_match idProv appCtx
    (List.replicate 32 9) (List.replicate 32 9)
  refine ⟨?_, ?_, ?_⟩
  · have := h.1 (by decide)
    simpa using this
  · have := h.2.1 (by
      intro b c hb hc
      have : some b = some c := hc
      cases this
      exact hb) (by decide)
    simpa using this
  · have := h.2.2.1 (by decide)
    simpa using this
